import Mathlib

/-!
Shallow embedding of `flow_control/flow.py` (Flow Control XBlock), a Python 2
module.  Python numbers that flow through the score logic are modelled as
rationals (`ℚ`); where Python 2 integer division semantics matter, a second
definition at integer type models `/` as floor division (`Int.fdiv`), which is
what Python 2 `int.__div__` computes.  Exceptions raised by the Python code are
modelled with `Except PyErr`.  Host-framework services (the scores client and
the usage-key pipeline) are abstracted as an environment
`env : String → Option Score` mapping a problem id to its fetched score, which
models `scores_client.get` composed with `_get_usage_key`; `filter(None, scores)`
is the `filterMap` over that environment.
-/

set_option autoImplicit false

namespace FlowControl

/-- A fetched score, modelling the host's `Score` named tuple with fields
`correct` and `total`. -/
structure Score where
  correct : ℚ
  total : ℚ
  deriving DecidableEq, Repr

/-- Python exceptions that the embedded code can raise. -/
inductive PyErr where
  | attributeError
  | typeError
  | indexError
  deriving DecidableEq, Repr

/-- The block's content fields, from the `FlowCheckPointXblock` field
declarations.  `ref_value` and `tab_to` are `Integer` fields; the `String`
fields hold their default (or authored) values. -/
structure FlowBlock where
  display_name : String := "Flow Control"
  action : String := "Display a message"
  condition : String := "Grade of a problem"
  operator : String := "equal to"
  ref_value : ℤ := 0
  tab_to : ℤ := 1
  target_url : String := ""
  target_id : String := ""
  message : String := ""
  problem_id : String := ""
  list_of_problems : String := ""
  deriving DecidableEq, Repr

/-- `_actions_generator(block)`: the list of possible actions to take when the
condition is met.  The `block` argument is unused in the source as well. -/
def actions_generator (_block : FlowBlock) : List String :=
  ["Display a message",
   "Redirect using jump_to_id",
   "Redirect to a given unit in the same subsection",
   "Redirect to a given URL"]

/-- `_conditions_generator(block)`: the list of possible conditions. -/
def conditions_generator (_block : FlowBlock) : List String :=
  ["Grade of a problem",
   "Average grade of a list of problems"]

/-- `_operators_generator(block)`: the list of possible operators. -/
def operators_generator (_block : FlowBlock) : List String :=
  ["equal to",
   "not equal to",
   "less than or equal to",
   "less than",
   "greater than or equal to",
   "greater than"]

/-- `compare_scores(self, correct, total)` with the scores at (idealised exact)
Python number type: `result = False`; under `if total:` the percentage
`(correct / total) * 100` is computed and each of the six `if` statements on
`self.operator` overwrites `result` in turn; `result` is returned. -/
def compare_scores (blk : FlowBlock) (correct total : ℚ) : Bool :=
  let result := false
  if total ≠ 0 then
    let percentage := correct / total * 100
    let result := if blk.operator = "equal to"
      then decide (percentage = (blk.ref_value : ℚ)) else result
    let result := if blk.operator = "not equal to"
      then decide (percentage ≠ (blk.ref_value : ℚ)) else result
    let result := if blk.operator = "less than or equal to"
      then decide (percentage ≤ (blk.ref_value : ℚ)) else result
    let result := if blk.operator = "greater than or equal to"
      then decide (percentage ≥ (blk.ref_value : ℚ)) else result
    let result := if blk.operator = "less than"
      then decide (percentage < (blk.ref_value : ℚ)) else result
    let result := if blk.operator = "greater than"
      then decide (percentage > (blk.ref_value : ℚ)) else result
    result
  else result

/-- `compare_scores` when `correct` and `total` are Python 2 `int`s: the same
source line `percentage = (correct / total) * 100` then floor-divides, since
Python 2 `/` on two `int`s is floor division (`Int.fdiv`). -/
def compare_scores_int (blk : FlowBlock) (correct total : ℤ) : Bool :=
  let result := false
  if total ≠ 0 then
    let percentage := Int.fdiv correct total * 100
    let result := if blk.operator = "equal to"
      then decide (percentage = blk.ref_value) else result
    let result := if blk.operator = "not equal to"
      then decide (percentage ≠ blk.ref_value) else result
    let result := if blk.operator = "less than or equal to"
      then decide (percentage ≤ blk.ref_value) else result
    let result := if blk.operator = "greater than or equal to"
      then decide (percentage ≥ blk.ref_value) else result
    let result := if blk.operator = "less than"
      then decide (percentage < blk.ref_value) else result
    let result := if blk.operator = "greater than"
      then decide (percentage > blk.ref_value) else result
    result
  else result

/-- A validation message, as added by `validation.add(ValidationMessage(...))`.
`severity` is the message type (`ValidationMessage.ERROR` is rendered here as
the string "error"). -/
structure ValidationMsg where
  severity : String
  text : String
  deriving DecidableEq, Repr

/-- `validate_field_data(self, validation, data)`: the list of messages the
method adds to `validation`, in order.  One ERROR message is added under
`data.tab_to <= 0` and one under `data.ref_value < 0 or data.ref_value > 100`. -/
def validate_field_data (data : FlowBlock) : List ValidationMsg :=
  let validation : List ValidationMsg := []
  let validation := if data.tab_to ≤ 0 then
      validation ++ [⟨"error", "Tab to redirect to must be greater than zero"⟩]
    else validation
  let validation := if data.ref_value < 0 ∨ data.ref_value > 100 then
      validation ++ [⟨"error",
        "Score percentage field must be an integer number between 0 and 100"⟩]
    else validation
  validation

/-- A Python value reached while reducing the score list: either a `Score`
named tuple or a number.  `reduce` without an initial value starts from the
first list element (a `Score`) and each application of the lambda
`lambda x, y: x.correct + y.correct` produces a number. -/
inductive RVal where
  | sc (s : Score)
  | num (q : ℚ)
  deriving DecidableEq, Repr

/-- One step of `reduce(lambda x, y: x.correct + y.correct, scores)`:
`x.correct` raises `AttributeError` when the accumulator `x` is already a
number (a number has no attribute `correct`); `y` is always a list element,
hence a `Score`. -/
def step_correct : RVal → Score → Except PyErr RVal
  | RVal.sc x, y => Except.ok (RVal.num (x.correct + y.correct))
  | RVal.num _, _ => Except.error PyErr.attributeError

/-- One step of `reduce(lambda x, y: x.total + y.total, scores)`. -/
def step_total : RVal → Score → Except PyErr RVal
  | RVal.sc x, y => Except.ok (RVal.num (x.total + y.total))
  | RVal.num _, _ => Except.error PyErr.typeError

/-- Python 2 `reduce(f, scores)` with no initial value: raises `TypeError` on
an empty sequence, otherwise folds `f` from the first element. -/
def pyreduce (f : RVal → Score → Except PyErr RVal) :
    List Score → Except PyErr RVal
  | [] => Except.error PyErr.typeError
  | s :: rest => rest.foldlM f (RVal.sc s)

/-- `condition_on_problem_list(self, problems)`.  The host scores pipeline
(`_get_usage_key`, `ScoresClient.fetch_scores`, `ScoresClient.get`) is
abstracted as `env : String → Option Score`; `scores = filter(None,
map(scores_client.get, usages_keys))` is then `(problems.map env).filterMap id`.
The two sequential `if` statements on `len(scores)` have disjoint, exhaustive
conditions over the three cases `len >= 2`, `len == 1` and `len == 0`, and the
first branch's `reduce` calls run in sequence (short-circuiting on an
exception), so they are rendered as an if/else-if/else chain; if a `reduce`
result were still a `Score` tuple, `compare_scores` would raise `TypeError` on
tuple division, and `scores[0]` on an empty list would raise `IndexError`. -/
def condition_on_problem_list (blk : FlowBlock) (env : String → Option Score)
    (problems : List String) : Except PyErr Bool :=
  let scores : List Score := (problems.map env).filterMap id
  if 2 ≤ scores.length then do
    let cv ← pyreduce step_correct scores
    let tv ← pyreduce step_total scores
    match cv, tv with
    | RVal.num c, RVal.num t => Except.ok (compare_scores blk c t)
    | _, _ => Except.error PyErr.typeError
  else if scores.length = 1 then
    match scores with
    | s :: _ => Except.ok (compare_scores blk s.correct s.total)
    | [] => Except.error PyErr.indexError
  else
    Except.ok (compare_scores blk 0 0)

/-- Python 2 `str.split()` with no argument: split on runs of whitespace,
discarding empty pieces. -/
def pySplit (s : String) : List String :=
  (s.split (fun c => c.isWhitespace)).filter (fun w => w ≠ "")

/-- `get_condition_status(self)`: pick the problem list according to
`self.condition` (two sequential `if` statements overwriting `problems`,
starting from `[]`), then evaluate `condition_on_problem_list`. -/
def get_condition_status (blk : FlowBlock) (env : String → Option Score) :
    Except PyErr Bool :=
  let problems : List String := []
  let problems := if blk.condition = "Grade of a problem"
    then pySplit blk.problem_id else problems
  let problems := if blk.condition = "Average grade of a list of problems"
    then pySplit blk.list_of_problems else problems
  condition_on_problem_list blk env problems

/-- The JSON dictionary returned by `condition_status_handler`. -/
structure HandlerResponse where
  success : Bool
  status : Bool
  deriving DecidableEq, Repr

/-- `condition_status_handler(self, data, suffix='')`: returns the dictionary
`{'success': True, 'status': self.get_condition_status()}`; an exception from
`get_condition_status` propagates out of the handler.  `data` and `suffix` are
unused in the source as well. -/
def condition_status_handler (blk : FlowBlock) (env : String → Option Score)
    (_data _suffix : String) : Except PyErr HandlerResponse := do
  let status ← get_condition_status blk env
  Except.ok { success := true, status := status }

end FlowControl

namespace FlowControl

/-- C1: for every pair `(correct, total)` with `total` non-zero and each of the
six listed operator strings, `compare_scores` returns the result of applying
the corresponding comparison relation to the computed percentage and the
`ref_value` field. -/
theorem compare_scores_dispatch_six_operators (blk : FlowBlock) (c t : ℚ)
    (h : t ≠ 0) :
    (compare_scores { blk with operator := "equal to" } c t = true ↔
      c / t * 100 = (blk.ref_value : ℚ)) ∧
    (compare_scores { blk with operator := "not equal to" } c t = true ↔
      c / t * 100 ≠ (blk.ref_value : ℚ)) ∧
    (compare_scores { blk with operator := "less than or equal to" } c t = true ↔
      c / t * 100 ≤ (blk.ref_value : ℚ)) ∧
    (compare_scores { blk with operator := "less than" } c t = true ↔
      c / t * 100 < (blk.ref_value : ℚ)) ∧
    (compare_scores { blk with operator := "greater than or equal to" } c t = true ↔
      c / t * 100 ≥ (blk.ref_value : ℚ)) ∧
    (compare_scores { blk with operator := "greater than" } c t = true ↔
      c / t * 100 > (blk.ref_value : ℚ)) := by
  refine ⟨?_, ?_, ?_, ?_, ?_, ?_⟩ <;> simp [compare_scores, h]

/-- Witness for C1 at `blk = {}`, `c = 1`, `t = 2`. -/
theorem compare_scores_dispatch_six_operators_witness :
    (2 : ℚ) ≠ 0 ∧
    (compare_scores { operator := "equal to" } 1 2 = true ↔
      (1 : ℚ) / 2 * 100 = ((0 : ℤ) : ℚ)) :=
  ⟨by norm_num,
   (compare_scores_dispatch_six_operators {} 1 2 (by norm_num)).1⟩

/-- C8: with `total` equal to zero the guard `if total:` fails, so
`compare_scores` returns `False` for every operator and `ref_value` (at both
idealised-rational and Python 2 integer score types), without dividing. -/
theorem compare_scores_zero_total_false (blk : FlowBlock) (c : ℚ) (ci : ℤ) :
    compare_scores blk c 0 = false ∧ compare_scores_int blk ci 0 = false := by
  constructor <;> simp [compare_scores, compare_scores_int]

/-- C9: an operator string that is not one of the six listed options leaves
`result = False` untouched, so `compare_scores` returns `False` for every
`correct`, `total` and `ref_value`. -/
theorem compare_scores_unknown_operator_false (blk : FlowBlock) (c t : ℚ)
    (h : blk.operator ∉ operators_generator blk) :
    compare_scores blk c t = false := by
  simp only [operators_generator, List.mem_cons, List.not_mem_nil, or_false,
    not_or] at h
  obtain ⟨h1, h2, h3, h4, h5, h6⟩ := h
  simp [compare_scores, h1, h2, h3, h4, h5, h6]

/-- Witness for C9 at the operator string "approximately". -/
theorem compare_scores_unknown_operator_false_witness :
    ({ operator := "approximately" } : FlowBlock).operator ∉
      operators_generator { operator := "approximately" } ∧
    compare_scores { operator := "approximately" } 1 2 = false :=
  ⟨by simp [operators_generator],
   compare_scores_unknown_operator_false { operator := "approximately" } 1 2
     (by simp [operators_generator])⟩

/-- C4 counterexample: at Python 2 integer scores `correct = 1`, `total = 2`
the exact percentage is 50, so with operator "equal to" and `ref_value = 50`
the claim predicts `True`; the code floor-divides (`1 / 2 == 0` in Python 2)
and returns `False`. -/
theorem compare_scores_int_exact_percentage_counterexample :
    compare_scores_int { operator := "equal to", ref_value := 50 } 1 2 = false ∧
    (1 : ℚ) / 2 * 100 = 50 := by
  constructor
  · simp [compare_scores_int]
  · norm_num

/-- C4 amended: at Python 2 integer score types the value compared against
`ref_value` is `100 * (correct fdiv total)` — floor division first, then the
scaling — and it coincides with the exact rational percentage exactly when
`total` divides `correct`. -/
theorem compare_scores_int_floor_dispatch (blk : FlowBlock) (c t : ℤ)
    (h : t ≠ 0) :
    (compare_scores_int { blk with operator := "equal to" } c t = true ↔
      Int.fdiv c t * 100 = blk.ref_value) ∧
    (compare_scores_int { blk with operator := "not equal to" } c t = true ↔
      Int.fdiv c t * 100 ≠ blk.ref_value) ∧
    (compare_scores_int { blk with operator := "less than or equal to" } c t = true ↔
      Int.fdiv c t * 100 ≤ blk.ref_value) ∧
    (compare_scores_int { blk with operator := "less than" } c t = true ↔
      Int.fdiv c t * 100 < blk.ref_value) ∧
    (compare_scores_int { blk with operator := "greater than or equal to" } c t = true ↔
      Int.fdiv c t * 100 ≥ blk.ref_value) ∧
    (compare_scores_int { blk with operator := "greater than" } c t = true ↔
      Int.fdiv c t * 100 > blk.ref_value) ∧
    (((Int.fdiv c t * 100 : ℤ) : ℚ) = (c : ℚ) / (t : ℚ) * 100 ↔ t ∣ c) := by
  refine ⟨?_, ?_, ?_, ?_, ?_, ?_, ?_⟩
  · simp [compare_scores_int, h]
  · simp [compare_scores_int, h]
  · simp [compare_scores_int, h]
  · simp [compare_scores_int, h]
  · simp [compare_scores_int, h]
  · simp [compare_scores_int, h]
  · constructor
    · intro he
      have ht : (t : ℚ) ≠ 0 := Int.cast_ne_zero.mpr h
      have : ((Int.fdiv c t : ℤ) : ℚ) * (t : ℚ) = (c : ℚ) := by
        push_cast at he ⊢
        field_simp at he
        nlinarith [he]
      have hz : ((Int.fdiv c t) * t : ℤ) = c := by
        exact_mod_cast this
      exact ⟨Int.fdiv c t, by linarith [mul_comm (Int.fdiv c t) t]⟩
    · rintro ⟨k, rfl⟩
      rw [Int.mul_fdiv_cancel_left _ h]
      have ht : (t : ℚ) ≠ 0 := Int.cast_ne_zero.mpr h
      push_cast
      field_simp

/-- Witness for C4's amended statement at `blk = {}`, `c = 1`, `t = 2`. -/
theorem compare_scores_int_floor_dispatch_witness :
    (2 : ℤ) ≠ 0 ∧
    (compare_scores_int { operator := "equal to" } 1 2 = true ↔
      Int.fdiv 1 2 * 100 = (0 : ℤ)) :=
  ⟨by norm_num, (compare_scores_int_floor_dispatch {} 1 2 (by norm_num)).1⟩

/-- C2: with three fetched scores of `(correct, total) = (1, 1)` each, the
claimed aggregation would compare `correct = 3` against `total = 3` (100%,
satisfying "equal to 100"), but the code's
`reduce(lambda x, y: x.correct + y.correct, scores)` applies `.correct` to the
numeric accumulator on its second step and raises `AttributeError`. -/
theorem condition_on_problem_list_three_scores_raises :
    condition_on_problem_list { operator := "equal to", ref_value := 100 }
      (fun p => if p = "a" ∨ p = "b" ∨ p = "c" then some ⟨1, 1⟩ else none)
      ["a", "b", "c"] = Except.error PyErr.attributeError ∧
    compare_scores { operator := "equal to", ref_value := 100 }
      (1 + 1 + 1) (1 + 1 + 1) = true := by
  constructor
  · rfl
  · simp [compare_scores]
    norm_num

/-- C3: the error state is reachable: evaluating `condition_on_problem_list`
on a problem list whose fetched, non-`None` scores number three raises
`AttributeError` instead of returning a boolean. -/
theorem condition_on_problem_list_error_reachable :
    condition_on_problem_list { operator := "greater than", ref_value := 10 }
      (fun p => if p = "p" ∨ p = "q" ∨ p = "r" then some ⟨1, 2⟩ else none)
      ["p", "q", "r"] = Except.error PyErr.attributeError := rfl

/-- C5: `validate_field_data` adds only ERROR-severity messages, their number
is one for `tab_to <= 0` plus one for `ref_value` outside `[0, 100]`, and no
message is added exactly when `tab_to > 0` and `0 <= ref_value <= 100`. -/
theorem validate_field_data_error_messages (data : FlowBlock) :
    (∀ m ∈ validate_field_data data, m.severity = "error") ∧
    ((validate_field_data data).filter (fun m => m.severity = "error")).length =
      (if data.tab_to ≤ 0 then 1 else 0) +
      (if data.ref_value < 0 ∨ data.ref_value > 100 then 1 else 0) ∧
    (validate_field_data data = [] ↔
      0 < data.tab_to ∧ 0 ≤ data.ref_value ∧ data.ref_value ≤ 100) := by
  simp only [validate_field_data]
  split_ifs with h1 h2 h2 <;> simp_all
  omega

/-- C6: whenever `get_condition_status` returns a value, the handler's
response has `success = True` and `status` equal to that value, for every
request payload and suffix. -/
theorem condition_status_handler_success_status (blk : FlowBlock)
    (env : String → Option Score) (data suffix : String) (b : Bool)
    (h : get_condition_status blk env = Except.ok b) :
    condition_status_handler blk env data suffix =
      Except.ok { success := true, status := b } := by
  simp [condition_status_handler, h, Except.bind, bind]

/-- Witness for C6 on a block whose condition is neither recognised option. -/
theorem condition_status_handler_success_status_witness :
    get_condition_status { condition := "none" } (fun _ => none) =
      Except.ok false ∧
    condition_status_handler { condition := "none" } (fun _ => none)
      "payload" "" = Except.ok { success := true, status := false } :=
  ⟨rfl,
   condition_status_handler_success_status { condition := "none" }
     (fun _ => none) "payload" "" false rfl⟩

/-- C7: the configurable outcome actions are exactly the four listed options,
for every block. -/
theorem actions_generator_exactly_four (blk : FlowBlock) :
    (∀ s, s ∈ actions_generator blk ↔
      (s = "Display a message" ∨ s = "Redirect using jump_to_id" ∨
       s = "Redirect to a given unit in the same subsection" ∨
       s = "Redirect to a given URL")) ∧
    (actions_generator blk).length = 4 := by
  constructor
  · intro s
    simp [actions_generator]
  · rfl

/-- C10: when `condition` is neither "Grade of a problem" nor "Average grade
of a list of problems", the problem list stays empty, so `correct` and `total`
stay 0 and `get_condition_status` returns `False` (never an error). -/
theorem get_condition_status_other_condition_false (blk : FlowBlock)
    (env : String → Option Score)
    (h1 : blk.condition ≠ "Grade of a problem")
    (h2 : blk.condition ≠ "Average grade of a list of problems") :
    get_condition_status blk env = Except.ok false := by
  simp [get_condition_status, h1, h2, condition_on_problem_list, compare_scores]

/-- Witness for C10 on the condition string "Both grades". -/
theorem get_condition_status_other_condition_false_witness :
    ({ condition := "Both grades" } : FlowBlock).condition ≠
      "Grade of a problem" ∧
    ({ condition := "Both grades" } : FlowBlock).condition ≠
      "Average grade of a list of problems" ∧
    get_condition_status { condition := "Both grades" }
      (fun _ => some ⟨1, 1⟩) = Except.ok false :=
  ⟨by simp, by simp,
   get_condition_status_other_condition_false { condition := "Both grades" }
     (fun _ => some ⟨1, 1⟩) (by simp) (by simp)⟩

end FlowControl
